import Mathlib

/-!
Verification development for the `sqlinternals` repository.

The Go sources are shallowly embedded:
* `Mysql` embeds the column metadata code of `mysql/mysql.go`
  (type-code constants, flag tests, `mysqlNameFor`, `MysqlParameters`,
  `MysqlDeclaration`, `ReflectType`).  Go machine integers are `Nat`
  (no arithmetic close to overflow occurs), Go `(T, error)` pairs are
  `T × Option Err` pairs, Go `...interface{}` argument lists are lists
  of a closed `Arg` variant (`int` / `string`, the only dynamic types
  exercised by the declaration code).
* `Mirror` embeds `mirror/mirror.go` (`CanConvertUnsafe`), with Go
  `reflect.Type` values embedded as a recursive `TypeDesc`.  The inner
  kind-walking loop of the source does not terminate when it reaches an
  interface-kind pair of identical types (no case sets `done`), so the
  embedding returns `Option Bool`, `none` standing for divergence.
* `SqlI` embeds the unsafe-pointer `Inspect` variant of `inspect.go`
  (`sqlRowsFromSqlRow`, `driverRowsFromSqlRows`, `Inspect`); its raw reads
  of the unexported `sql.Row.rows` / `sql.Rows.rowsi` fields through
  init-verified offsets become direct field access.  The reflect-based
  variant is not embedded: its `CanInterface()` guards are false for every
  value obtained from an unexported struct field in Go, so it cannot reach
  its unwrap or error-propagation branches at all.
* `Probe` embeds the process-wide verdict cache logic of
  `mysqlinternals/unsafe.go` (`driverRows`, `Columns`).
-/

namespace Mysql

/-! Type codes, from the `fieldType*` constant blocks
(`mysqlinternals/unsafe.go` and `mysql/unsafe.go`; the shared codes agree). -/

def fieldTypeDecimal : Nat := 0
def fieldTypeTiny : Nat := 1
def fieldTypeShort : Nat := 2
def fieldTypeLong : Nat := 3
def fieldTypeFloat : Nat := 4
def fieldTypeDouble : Nat := 5
def fieldTypeNULL : Nat := 6
def fieldTypeTimestamp : Nat := 7
def fieldTypeLongLong : Nat := 8
def fieldTypeInt24 : Nat := 9
def fieldTypeDate : Nat := 10
def fieldTypeTime : Nat := 11
def fieldTypeDateTime : Nat := 12
def fieldTypeYear : Nat := 13
def fieldTypeNewDate : Nat := 14
def fieldTypeVarChar : Nat := 15
def fieldTypeBit : Nat := 16
def fieldTypeNewDecimal : Nat := 246
def fieldTypeEnum : Nat := 247
def fieldTypeSet : Nat := 248
def fieldTypeTinyBLOB : Nat := 249
def fieldTypeMediumBLOB : Nat := 250
def fieldTypeLongBLOB : Nat := 251
def fieldTypeBLOB : Nat := 252
def fieldTypeVarString : Nat := 253
def fieldTypeString : Nat := 254
def fieldTypeGeometry : Nat := 255

/-! Flag bits, from the `fieldFlag` constant block. -/

def flagNotNULL : Nat := 1
def flagPriKey : Nat := 2
def flagUniqueKey : Nat := 4
def flagMultipleKey : Nat := 8
def flagBLOB : Nat := 16
def flagUnsigned : Nat := 32
def flagZeroFill : Nat := 64
def flagBinary : Nat := 128
def flagEnum : Nat := 256
def flagAutoIncrement : Nat := 512

/-- `mysqlField` from `mysql/unsafe.go` (the column descriptor consumed by
`mysql/mysql.go`; the `decimals`/`tableName` fields of the later variant are
not read by any of the embedded operations). -/
structure mysqlField where
  name : String
  fieldType : Nat
  flags : Nat
deriving DecidableEq, Repr

/-- `f.flags&flag == flag`, the bit test used by all flag predicates. -/
def mysqlField.hasFlag (f : mysqlField) (flag : Nat) : Bool :=
  f.flags &&& flag == flag

def mysqlField.IsNotNull (f : mysqlField) : Bool := f.hasFlag flagNotNULL
def mysqlField.IsUnsigned (f : mysqlField) : Bool := f.hasFlag flagUnsigned
def mysqlField.IsZerofill (f : mysqlField) : Bool := f.hasFlag flagZeroFill
def mysqlField.IsBinary (f : mysqlField) : Bool := f.hasFlag flagBinary

/-- `IsInteger` (`mysql/mysql.go`): switch on Tiny, Short, Int24, Long, LongLong. -/
def mysqlField.IsInteger (f : mysqlField) : Bool :=
  f.fieldType == fieldTypeTiny || f.fieldType == fieldTypeShort ||
  f.fieldType == fieldTypeInt24 || f.fieldType == fieldTypeLong ||
  f.fieldType == fieldTypeLongLong

/-- `IsFloatingPoint`: switch on Float, Double. -/
def mysqlField.IsFloatingPoint (f : mysqlField) : Bool :=
  f.fieldType == fieldTypeFloat || f.fieldType == fieldTypeDouble

/-- `IsDecimal`: switch on Decimal, NewDecimal. -/
def mysqlField.IsDecimal (f : mysqlField) : Bool :=
  f.fieldType == fieldTypeDecimal || f.fieldType == fieldTypeNewDecimal

/-- `IsBlob`: switch on TinyBLOB, MediumBLOB, BLOB, LongBLOB. -/
def mysqlField.IsBlob (f : mysqlField) : Bool :=
  f.fieldType == fieldTypeTinyBLOB || f.fieldType == fieldTypeMediumBLOB ||
  f.fieldType == fieldTypeBLOB || f.fieldType == fieldTypeLongBLOB

/-- `IsText`: switch on VarChar, VarString, String. -/
def mysqlField.IsText (f : mysqlField) : Bool :=
  f.fieldType == fieldTypeVarChar || f.fieldType == fieldTypeVarString ||
  f.fieldType == fieldTypeString

/-- `IsTime`: switch on Year, Date, NewDate, Time, Timestamp, DateTime. -/
def mysqlField.IsTime (f : mysqlField) : Bool :=
  f.fieldType == fieldTypeYear || f.fieldType == fieldTypeDate ||
  f.fieldType == fieldTypeNewDate || f.fieldType == fieldTypeTime ||
  f.fieldType == fieldTypeTimestamp || f.fieldType == fieldTypeDateTime

/-- `IsNumber`: integer, floating point or decimal. -/
def mysqlField.IsNumber (f : mysqlField) : Bool :=
  f.IsInteger || f.IsFloatingPoint || f.IsDecimal

/-- `mysqlNameFor` (`mysql/mysql.go`): SQL-visible type name per code,
empty string for codes without a name. -/
def mysqlNameFor (c : Nat) : String :=
  if c = fieldTypeTiny then "TINYINT"
  else if c = fieldTypeShort then "SHORTINT"
  else if c = fieldTypeInt24 ∨ c = fieldTypeLong then "INT"
  else if c = fieldTypeLongLong then "BIGINT"
  else if c = fieldTypeFloat then "FLOAT"
  else if c = fieldTypeDouble then "DOUBLE"
  else if c = fieldTypeDecimal ∨ c = fieldTypeNewDecimal then "DECIMAL"
  else if c = fieldTypeYear then "YEAR"
  else if c = fieldTypeDate ∨ c = fieldTypeNewDate then "DATE"
  else if c = fieldTypeTime then "TIME"
  else if c = fieldTypeTimestamp then "TIMESTAMP"
  else if c = fieldTypeDateTime then "DATETIME"
  else if c = fieldTypeNULL then "NULL"
  else if c = fieldTypeBit then "BIT"
  else if c = fieldTypeVarChar ∨ c = fieldTypeVarString then "VARCHAR"
  else if c = fieldTypeString then "CHAR"
  else if c = fieldTypeEnum then "ENUM"
  else if c = fieldTypeSet then "SET"
  else if c = fieldTypeTinyBLOB then "TINY BLOB"
  else if c = fieldTypeMediumBLOB then "MEDIUM BLOB"
  else if c = fieldTypeBLOB then "BLOB"
  else if c = fieldTypeLongBLOB then "LONG BLOB"
  else if c = fieldTypeGeometry then "GEOMETRY"
  else ""

/-- `parameterType` (`mysql/mysql.go`). -/
inductive parameterType where
  | ParamUnknown
  | ParamNone
  | ParamMayLength
  | ParamMustLength
  | ParamMayLengthAndDecimals
  | ParamMayLengthMayDecimals
  | ParamOneOrMore
deriving DecidableEq, Repr

/-- `MysqlParameters` (`mysql/mysql.go`): parameter category per type code. -/
def mysqlField.MysqlParameters (f : mysqlField) : parameterType :=
  if f.fieldType = fieldTypeYear ∨ f.fieldType = fieldTypeDate ∨
     f.fieldType = fieldTypeNewDate ∨ f.fieldType = fieldTypeTime ∨
     f.fieldType = fieldTypeTimestamp ∨ f.fieldType = fieldTypeDateTime ∨
     f.fieldType = fieldTypeTinyBLOB ∨ f.fieldType = fieldTypeMediumBLOB ∨
     f.fieldType = fieldTypeBLOB ∨ f.fieldType = fieldTypeLongBLOB ∨
     f.fieldType = fieldTypeGeometry then .ParamNone
  else if f.fieldType = fieldTypeBit ∨ f.fieldType = fieldTypeTiny ∨
     f.fieldType = fieldTypeShort ∨ f.fieldType = fieldTypeInt24 ∨
     f.fieldType = fieldTypeLong ∨ f.fieldType = fieldTypeLongLong ∨
     f.fieldType = fieldTypeString then .ParamMayLength
  else if f.fieldType = fieldTypeDecimal ∨ f.fieldType = fieldTypeNewDecimal then
    .ParamMayLengthMayDecimals
  else if f.fieldType = fieldTypeFloat ∨ f.fieldType = fieldTypeDouble then
    .ParamMayLengthAndDecimals
  else if f.fieldType = fieldTypeVarChar ∨ f.fieldType = fieldTypeVarString then
    .ParamMustLength
  else if f.fieldType = fieldTypeEnum ∨ f.fieldType = fieldTypeSet then
    .ParamOneOrMore
  else .ParamUnknown

/-- A declaration argument (`args ...interface{}`): the declaration code only
distinguishes `int` arguments from everything else; `string` stands for any
non-`int` dynamic type. -/
inductive Arg where
  | int (i : Int)
  | str (s : String)
deriving DecidableEq, Repr

/-- The `paramErr` constants of `MysqlDeclaration`. -/
inductive DeclErr where
  | errNil
  | errUnknown
  | errNone
  | errMayLength
  | errMustLength
  | errMayLengthAndDecimals
  | errMayLengthMayDecimals
  | errEnumOrSet
deriving DecidableEq, Repr

/-- Go `%v` formatting of an argument. -/
def goV : Arg → String
  | .int i => toString i
  | .str s => s

/-- Go dynamic type name of an argument (used by `fmt` for extra arguments). -/
def goTypeName : Arg → String
  | .int _ => "int"
  | .str _ => "string"

/-- `fmt.Sprintf` with one verb: surplus arguments are appended as
`%!(EXTRA type=value, ...)`, a missing argument renders the verb as
`%!v(MISSING)`. -/
def sprintfParenV : List Arg → String
  | [] => "(%!v(MISSING))"
  | a :: rest =>
    "(" ++ goV a ++ ")" ++
    (match rest with
     | [] => ""
     | _ => "%!(EXTRA " ++
        String.intercalate ", " (rest.map (fun x => goTypeName x ++ "=" ++ goV x)) ++ ")")

/-- The inner `argsToParam` closure of `MysqlDeclaration`: converts the
argument list to a parenthesized parameter fragment or reports `err`. -/
def argsToParam (args : List Arg) (ptype : parameterType) (err : DeclErr) :
    String × Option DeclErr :=
  if ptype = .ParamUnknown then ("", some .errUnknown)
  else
    match args with
    | [] =>
      match ptype with
      | .ParamNone | .ParamMayLength | .ParamMayLengthAndDecimals
      | .ParamMayLengthMayDecimals => ("", none)
      | _ => ("", some err)
    | a0 :: rest =>
      if ptype = .ParamOneOrMore then (sprintfParenV args, none)
      else if args.length > 2 then ("", some err)
      else
        match a0 with
        | .str _ => ("", some err)
        | .int length =>
          if length ≤ 0 then ("", some err)
          else
            match rest with
            | [] =>
              match ptype with
              | .ParamMayLength | .ParamMustLength | .ParamMayLengthMayDecimals =>
                ("(" ++ toString length ++ ")", none)
              | _ => ("", some err)
            | [a1] =>
              match a1 with
              | .str _ => ("", some err)
              | .int decimals =>
                if decimals < 0 then ("", some err)
                else
                  match ptype with
                  | .ParamMayLengthAndDecimals | .ParamMayLengthMayDecimals =>
                    ("(" ++ toString length ++ "," ++ toString decimals ++ ")", none)
                  | _ => ("", some err)
            | _ => ("", some err)

/-- The `paramErr` passed to `argsToParam` for each parameter category
(the `switch ptype` of `MysqlDeclaration`). -/
def declErrFor : parameterType → DeclErr
  | .ParamUnknown => .errUnknown
  | .ParamNone => .errNone
  | .ParamMayLength => .errMayLength
  | .ParamMustLength => .errMustLength
  | .ParamMayLengthAndDecimals => .errMayLengthAndDecimals
  | .ParamMayLengthMayDecimals => .errMayLengthMayDecimals
  | .ParamOneOrMore => .errEnumOrSet

/-- The numeric codes of the suffix switch in `MysqlDeclaration`
(may carry UNSIGNED / ZEROFILL). -/
def isNumericDeclCode (c : Nat) : Bool :=
  c == fieldTypeTiny || c == fieldTypeShort || c == fieldTypeInt24 ||
  c == fieldTypeLong || c == fieldTypeLongLong || c == fieldTypeFloat ||
  c == fieldTypeDouble || c == fieldTypeDecimal || c == fieldTypeNewDecimal

/-- The string codes of the suffix switch in `MysqlDeclaration`
(may carry BINARY). -/
def isStringDeclCode (c : Nat) : Bool :=
  c == fieldTypeVarChar || c == fieldTypeVarString || c == fieldTypeString

/-- `us` suffix of `MysqlDeclaration`. -/
def usSuffix (f : mysqlField) : String :=
  if isNumericDeclCode f.fieldType && f.IsUnsigned then " UNSIGNED" else ""

/-- `zf` suffix of `MysqlDeclaration`. -/
def zfSuffix (f : mysqlField) : String :=
  if isNumericDeclCode f.fieldType && f.IsZerofill then " ZEROFILL" else ""

/-- `bin` suffix of `MysqlDeclaration`. -/
def binSuffix (f : mysqlField) : String :=
  if isStringDeclCode f.fieldType && f.IsBinary then " BINARY" else ""

/-- `nn` suffix of `MysqlDeclaration`. -/
def nnSuffix (f : mysqlField) : String :=
  if f.IsNotNull then " NOT NULL" else ""

/-- `MysqlDeclaration` (`mysql/mysql.go`): builds the SQL type declaration,
returned as the Go `(string, error)` pair. -/
def MysqlDeclaration (f : mysqlField) (args : List Arg) : String × Option DeclErr :=
  if f.fieldType = fieldTypeNULL then ("", some .errNil)
  else if f.MysqlParameters = .ParamUnknown then ("", some .errUnknown)
  else
    match argsToParam args f.MysqlParameters (declErrFor f.MysqlParameters) with
    | (_, some e) => ("", some e)
    | (param, none) =>
      (mysqlNameFor f.fieldType ++ param ++ binSuffix f ++ usSuffix f ++
        zfSuffix f ++ nnSuffix f, none)

/-- The `reflect.Type` constants of `mysql/mysql.go`. -/
inductive GoType where
  | uint8
  | uint16
  | uint32
  | uint64
  | int8
  | int16
  | int32
  | int64
  | float32
  | float64
  | bigint
  | bools
  | bytes
  | goString
  | time
deriving DecidableEq, Repr

/-- Errors of `ReflectType`: `errorTypeMismatch(code)` or
`errors.New("unknown mysql type")`. -/
inductive RTErr where
  | typeMismatch (c : Nat)
  | unknownType
deriving DecidableEq, Repr

/-- The signed / non-integer switch of `ReflectType` (reached when the
unsigned fast path does not return). -/
def reflectTypeSigned (c : Nat) : Except RTErr GoType :=
  if c = fieldTypeTiny then .ok .int8
  else if c = fieldTypeShort then .ok .int16
  else if c = fieldTypeInt24 ∨ c = fieldTypeLong then .ok .int32
  else if c = fieldTypeLongLong then .ok .int64
  else if c = fieldTypeFloat then .ok .float32
  else if c = fieldTypeDouble then .ok .float64
  else if c = fieldTypeDecimal ∨ c = fieldTypeNewDecimal then .ok .bigint
  else if c = fieldTypeYear ∨ c = fieldTypeDate ∨ c = fieldTypeNewDate ∨
    c = fieldTypeTime ∨ c = fieldTypeTimestamp ∨ c = fieldTypeDateTime then .ok .time
  else if c = fieldTypeBit then .ok .bools
  else if c = fieldTypeVarChar ∨ c = fieldTypeVarString ∨ c = fieldTypeString then
    .ok .goString
  else if c = fieldTypeTinyBLOB ∨ c = fieldTypeMediumBLOB ∨ c = fieldTypeBLOB ∨
    c = fieldTypeLongBLOB then .ok .bytes
  else if c = fieldTypeEnum ∨ c = fieldTypeSet ∨ c = fieldTypeGeometry ∨
    c = fieldTypeNULL then .error (.typeMismatch c)
  else .error .unknownType

/-- `ReflectType` (`mysql/mysql.go`): best matching Go value type for a field;
unsigned integer codes take the unsigned fast path, everything else falls
through to the signed / non-integer switch. -/
def ReflectType (f : mysqlField) : Except RTErr GoType :=
  if f.IsUnsigned then
    if f.fieldType = fieldTypeTiny then .ok .uint8
    else if f.fieldType = fieldTypeShort then .ok .uint16
    else if f.fieldType = fieldTypeInt24 ∨ f.fieldType = fieldTypeLong then .ok .uint32
    else if f.fieldType = fieldTypeLongLong then .ok .uint64
    else reflectTypeSigned f.fieldType
  else reflectTypeSigned f.fieldType

end Mysql

namespace Mirror

/-- Embedding of Go `reflect.Type` for the purposes of `CanConvertUnsafe`
(`mirror/mirror.go`): a recursive shape descriptor.  A record carries its
declared name and its ordered fields (field name, byte offset, field type);
container / reference kinds carry their element type; an interface type is
identified by a token (Go compares interface field types by identity);
a scalar kind carries a kind id (int, uint8, string, ...). -/
inductive TypeDesc where
  | record (name : String) (fields : List (String × Nat × TypeDesc))
  | array (elem : TypeDesc)
  | chanT (elem : TypeDesc)
  | mapT (elem : TypeDesc)
  | ptr (elem : TypeDesc)
  | slice (elem : TypeDesc)
  | iface (id : Nat)
  | scalar (kindId : Nat)

/-- `reflect.Kind` of a descriptor, as a number (scalar kinds are split by
their kind id, matching Go where Int and String are distinct kinds). -/
def kindId : TypeDesc → Nat
  | .record _ _ => 0
  | .array _ => 1
  | .chanT _ => 2
  | .mapT _ => 3
  | .ptr _ => 4
  | .slice _ => 5
  | .iface _ => 6
  | .scalar k => 7 + k

/-- Outcome of the inner `for done := false; !done;` loop of
`CanConvertUnsafe`: a mismatch (`return false`), divergence (the
`reflect.Interface` case sets neither `done` nor unwraps, so identical
interface types loop forever), or the unwrapped pair at which `done`
was set. -/
inductive WalkRes where
  | bad
  | hang
  | done (t1 t2 : TypeDesc)

/-- The inner kind-walking loop of `CanConvertUnsafe`: container and
reference kinds unwrap one element level (without consuming the recursion
budget), interface kinds compare identity, record kinds compare declared
names when no budget remains. -/
def walk (n : Nat) : TypeDesc → TypeDesc → WalkRes
  | a, b =>
    if kindId a ≠ kindId b then .bad
    else
      match a, b with
      | .array e1, .array e2 | .chanT e1, .chanT e2 | .mapT e1, .mapT e2
      | .ptr e1, .ptr e2 | .slice e1, .slice e2 => walk n e1 e2
      | .iface i1, .iface i2 => if i1 = i2 then .hang else .bad
      | .record n1 _, .record n2 _ => if n = 0 ∧ n1 ≠ n2 then .bad else .done a b
      | _, _ => .done a b

/-- The per-field loop body of `CanConvertUnsafe`: field names and offsets
must match, then the kinds are walked, then (`recurseStructs > 0` only,
encoded by `recur`) the unwrapped pair is compared recursively. -/
def fieldsCheck (n : Nat) (recur : TypeDesc → TypeDesc → Option Bool) :
    List (String × Nat × TypeDesc) → List (String × Nat × TypeDesc) → Option Bool
  | [], _ => some true
  | _ :: _, [] => some false
  | (na, oa, ta) :: fs, (nb, ob, tb) :: gs =>
    if na ≠ nb ∨ oa ≠ ob then some false
    else
      match walk n ta tb with
      | .bad => some false
      | .hang => none
      | .done t1 t2 =>
        match recur t1 t2 with
        | none => none
        | some false => some false
        | some true => fieldsCheck n recur fs gs

/-- The body of `CanConvertUnsafe` at a fixed budget: both sides must be
records of the same declared name and field count, then every field is
checked; `recur` is the recursive call at the decremented budget (a constant
`true` when no budget remains, matching `recurseStructs > 0 && ...`). -/
def canConvertTop (n : Nat) (recur : TypeDesc → TypeDesc → Option Bool)
    (a b : TypeDesc) : Option Bool :=
  match a, b with
  | .record na fa, .record nb fb =>
    if na ≠ nb ∨ fa.length ≠ fb.length then some false
    else fieldsCheck n recur fa fb
  | _, _ => some false

/-- `CanConvertUnsafe` (`mirror/mirror.go`; identical to `canConvertUnsafe`
in `mysql/unsafe.go`).  The Go `recurseStructs` budget is a `Nat` (the
claims concern budgets ≥ 0, and the code treats every budget ≤ 0 alike).
The result is `none` when the source diverges (identical interface-kind
field types), `some b` when it returns `b`. -/
def canConvertUnsafe : Nat → TypeDesc → TypeDesc → Option Bool
  | 0, a, b => canConvertTop 0 (fun _ _ => some true) a b
  | m + 1, a, b =>
    canConvertTop (m + 1) (fun t1 t2 => canConvertUnsafe m t1 t2) a b

end Mirror

namespace SqlI

/-- An internal `driver.Rows` handle (opaque to this package). -/
structure DRows where
  id : Nat
deriving DecidableEq, Repr

/-- The `internalErr` constants of `inspect.go`, plus `stored`, standing
for an arbitrary error value held in `sql.Row.err` (which `inspect.go`
never reads). -/
inductive Err where
  | errArgNil
  | errArgWrongType
  | errRowRows
  | errRowRowsNil
  | errRowsRowsi
  | errRowsRowsiNil
  | stored (id : Nat)
deriving DecidableEq, Repr

/-- `sql.Rows`: only the unexported `rowsi driver.Rows` field is read. -/
structure RowsData where
  rowsi : Option DRows
deriving DecidableEq, Repr

/-- `sql.Row`: the unexported `rows *sql.Rows` and `err error` fields
(by the documented contract of `database/sql`, exactly one is non-nil). -/
structure RowData where
  rows : Option RowsData
  err : Option Err
deriving DecidableEq, Repr

/-- `sqlRowsFromSqlRow` (`inspect.go`): nil argument is rejected, then the
unexported `rows` field is read through the init-verified offset (direct
field access here).  A nil `rows` yields `errRowRowsNil`; the `err` field
is never read, so a stored error is not propagated. -/
def sqlRowsFromSqlRow : Option RowData → Option RowsData × Option Err
  | none => (none, some .errArgNil)
  | some row =>
    match row.rows with
    | none => (none, some .errRowRowsNil)
    | some rows => (some rows, none)

/-- `driverRowsFromSqlRows` (`inspect.go`): nil argument is rejected, then
the unexported `rowsi` field is read through the init-verified offset and
returned with a nil error — the source does not nil-check the read `rowsi`
value itself (its `rowsiPtr == 0` test is address arithmetic on a non-nil
pointer plus an offset and cannot fire, so it is not represented). -/
def driverRowsFromSqlRows : Option RowsData → Option DRows × Option Err
  | none => (none, some .errArgNil)
  | some rows => (rows.rowsi, none)

/-- A value passed to `Inspect`: the nil interface, a (possibly nil)
`*sql.Row`, a (possibly nil) `*sql.Rows`, or a value of any other dynamic
type. -/
inductive SqlValue where
  | nilValue
  | row (r : Option RowData)
  | rows (rs : Option RowsData)
  | other (v : Nat)
deriving DecidableEq, Repr

/-- A value `Inspect` returns in its first (`interface{}`) result slot:
either a `driver.Rows` handle or an error value. -/
inductive InspectRes where
  | handle (d : DRows)
  | errValue (e : Err)
deriving DecidableEq, Repr

/-- Maps the result of `driverRowsFromSqlRows` into `Inspect`'s result pair. -/
def liftDRes : Option DRows × Option Err → Option InspectRes × Option Err
  | (some d, e) => (some (.handle d), e)
  | (none, e) => (none, e)

/-- `Inspect` (`inspect.go`; the `unnamed/part_000` and
`mysqlinternals/unsafe.go` variants share the same type switch): nil
rejection, type switch on `*sql.Row` / `*sql.Rows`, unwrap, and — verbatim
from the source — `default: return errArgWrongType, nil` for any other
dynamic type: the error constant is returned in the result slot with a nil
error. -/
def Inspect : SqlValue → Option InspectRes × Option Err
  | .nilValue => (none, some .errArgNil)
  | .row r =>
    match sqlRowsFromSqlRow r with
    | (_, some e) => (none, some e)
    | (rows, none) => liftDRes (driverRowsFromSqlRows rows)
  | .rows rs => liftDRes (driverRowsFromSqlRows rs)
  | .other _ => (some (.errValue .errArgWrongType), none)

end SqlI

namespace Probe

/-- The process-wide verdict cache of `mysqlinternals/unsafe.go`:
`failedInit` (permanently unavailable) and `structsChecked`
(layout confirmed). -/
structure ProbeState where
  failedInit : Bool
  structsChecked : Bool
deriving DecidableEq, Repr

/-- Classification of what `initOffsets` returns for a given handle:
`success` (nil error), `transient` (`errUnexpectedType` / `errUnexpectedNil`,
which do not poison the cache), or `permanent` (any other layout-mismatch
error, which sets `failedInit`).  The structural probe itself inspects the
runtime shape of a foreign value, so its verdict is carried as data of the
input handle. -/
inductive InitOutcome where
  | success
  | transient
  | permanent
deriving DecidableEq, Repr

/-- A `driver.Rows` handle as seen by `driverRows` / `Columns`: its probe
verdict, whether its concrete type is `emptyRows`, and its column
descriptor list. -/
structure DRowsV where
  probe : InitOutcome
  isEmptyRows : Bool
  cols : List Mysql.mysqlField
deriving DecidableEq, Repr

/-- A cursor argument of `Columns`: nil, a value `Inspect` rejects, an
inspected value that is not a `driver.Rows`, or a proper handle. -/
inductive CursorInput where
  | nilInput
  | badInspect
  | notDriverRows
  | good (d : DRowsV)
deriving DecidableEq, Repr

def isNilInput : CursorInput → Bool
  | .nilInput => true
  | _ => false

/-- `driverRows` (`mysqlinternals/unsafe.go`), as a state transformer over
the verdict cache.  Result: the Go `(driver.Rows, bool)` pair, the new cache
state, and whether `initOffsets` (the structural probe) was run during the
call.  The entry guard `rowOrRows == nil || failedInit` short-circuits both
cases; the body reproduces the lock-protected probe-and-record switch. -/
def driverRows (st : ProbeState) (input : CursorInput) :
    (Option DRowsV × Bool) × ProbeState × Bool :=
  if isNilInput input || st.failedInit then ((none, false), st, false)
  else
    match input with
    | .nilInput => ((none, false), st, false)
    | .badInspect => ((none, false), st, false)
    | .notDriverRows => ((none, false), st, false)
    | .good d =>
      if st.structsChecked then ((some d, true), st, false)
      else if st.failedInit then ((some d, true), st, false)
      else
        match d.probe with
        | .success => ((some d, true), ⟨st.failedInit, true⟩, true)
        | .transient => ((none, false), st, true)
        | .permanent => ((none, false), ⟨true, st.structsChecked⟩, true)

/-- Result of `Columns`: the `errUnavailable` error, the nil column list of
an `emptyRows` handle, or the extracted column descriptors. -/
inductive ColsRes where
  | unavailable
  | empty
  | cols (l : List Mysql.mysqlField)
deriving DecidableEq, Repr

/-- `Columns` (`mysqlinternals/unsafe.go`), threading the verdict cache and
reporting whether the structural probe ran. -/
def Columns (st : ProbeState) (input : CursorInput) : ColsRes × ProbeState × Bool :=
  match driverRows st input with
  | ((some d, true), st1, probed) =>
    if d.isEmptyRows then (.empty, st1, probed) else (.cols d.cols, st1, probed)
  | ((_, _), st1, probed) => (.unavailable, st1, probed)

end Probe

/-- A minimal well-formed record descriptor: Go `struct S { x int }`
(one scalar field named `x` at offset 0). -/
def sampleRecord : Mirror.TypeDesc := .record "S" [("x", 0, .scalar 0)]

/-- C1: the claim says `Inspect` returns a nil result together with the
WrongType error for any input that is neither `*sql.Row` nor `*sql.Rows`.
The code instead executes `return errArgWrongType, nil`: the WrongType error
constant is returned in the result slot and the error result is nil.  This
theorem evaluates the embedded code at such inputs and records that the
claimed pair is not returned. -/
theorem inspect_nonwrapper_error_in_result_slot :
    (∀ v : Nat, SqlI.Inspect (.other v) =
      (some (.errValue .errArgWrongType), none)) ∧
    SqlI.Inspect (.other 0) ≠ (none, some .errArgWrongType) :=
  ⟨fun _ => rfl, by decide⟩

/-- C2: the claim says `isCompatible(T, T, n)` is true for every well-formed
record descriptor `T` and every budget `n ≥ 0`.  At the failing input
`T = struct S { x int }`, `n = 1`, the code returns false: with a positive
budget it recursively calls itself on every field's unwrapped element type,
and the recursive call rejects the non-record type `int`.  The same input
passes at budget 0. -/
theorem canConvertUnsafe_not_reflexive_with_budget :
    Mirror.canConvertUnsafe 0 sampleRecord sampleRecord = some true ∧
    Mirror.canConvertUnsafe 1 sampleRecord sampleRecord = some false := by
  constructor <;> rfl

/-- C3: once the verdict cache records a permanent probe failure
(`failedInit`), every later `Columns` call — whatever its input cursor —
returns Unavailable immediately, leaves the cache unchanged, and does not
run the structural probe (the probed flag of the embedding is false). -/
theorem columns_after_permanent_failure (st : Probe.ProbeState)
    (input : Probe.CursorInput) (h : st.failedInit = true) :
    Probe.Columns st input = (.unavailable, st, false) := by
  have hd : Probe.driverRows st input = ((none, false), st, false) := by
    unfold Probe.driverRows
    rw [h, Bool.or_true]
    rfl
  unfold Probe.Columns
  rw [hd]

/-- C3 witness: in the poisoned cache state, even a cursor whose probe
would succeed is rejected without probing. -/
theorem columns_after_permanent_failure_witness :
    Probe.Columns ⟨true, false⟩ (.good ⟨.success, false, []⟩) =
      (.unavailable, ⟨true, false⟩, false) :=
  columns_after_permanent_failure ⟨true, false⟩ (.good ⟨.success, false, []⟩) rfl

/-- C4: `MysqlDeclaration` of a not-null varchar field with argument list
`[2]` succeeds with exactly `"VARCHAR(2) NOT NULL"`; and every successful
declaration is the canonical name, then the parameter fragment, then the
BINARY, UNSIGNED, ZEROFILL and NOT NULL suffixes in that fixed order. -/
theorem mysqlDeclaration_varchar_and_suffix_order :
    Mysql.MysqlDeclaration ⟨"", Mysql.fieldTypeVarChar, Mysql.flagNotNULL⟩
      [.int 2] = ("VARCHAR(2) NOT NULL", none) ∧
    ∀ (f : Mysql.mysqlField) (args : List Mysql.Arg) (s : String),
      Mysql.MysqlDeclaration f args = (s, none) →
      ∃ param,
        Mysql.argsToParam args f.MysqlParameters
          (Mysql.declErrFor f.MysqlParameters) = (param, none) ∧
        s = Mysql.mysqlNameFor f.fieldType ++ param ++ Mysql.binSuffix f ++
          Mysql.usSuffix f ++ Mysql.zfSuffix f ++ Mysql.nnSuffix f := by
  constructor
  · decide
  · intro f args s h
    unfold Mysql.MysqlDeclaration at h
    split at h
    · simp at h
    · split at h
      · simp at h
      · split at h
        · simp at h
        · rename_i param heq
          refine ⟨param, heq, ?_⟩
          exact ((Prod.mk.injEq _ _ _ _).mp h).1.symm

/-- C4 witness: the suffix-order decomposition instantiated at the varchar
example. -/
theorem mysqlDeclaration_varchar_and_suffix_order_witness :
    ∃ param,
      Mysql.argsToParam [.int 2]
        (Mysql.mysqlField.MysqlParameters
          ⟨"", Mysql.fieldTypeVarChar, Mysql.flagNotNULL⟩)
        (Mysql.declErrFor
          (Mysql.mysqlField.MysqlParameters
            ⟨"", Mysql.fieldTypeVarChar, Mysql.flagNotNULL⟩)) = (param, none) ∧
      "VARCHAR(2) NOT NULL" =
        Mysql.mysqlNameFor Mysql.fieldTypeVarChar ++ param ++
        Mysql.binSuffix ⟨"", Mysql.fieldTypeVarChar, Mysql.flagNotNULL⟩ ++
        Mysql.usSuffix ⟨"", Mysql.fieldTypeVarChar, Mysql.flagNotNULL⟩ ++
        Mysql.zfSuffix ⟨"", Mysql.fieldTypeVarChar, Mysql.flagNotNULL⟩ ++
        Mysql.nnSuffix ⟨"", Mysql.fieldTypeVarChar, Mysql.flagNotNULL⟩ :=
  mysqlDeclaration_varchar_and_suffix_order.2
    ⟨"", Mysql.fieldTypeVarChar, Mysql.flagNotNULL⟩ [.int 2]
    "VARCHAR(2) NOT NULL" (by decide)

/-- C5: the six category predicates (integer, floating point, decimal,
text, blob, temporal) are pairwise mutually exclusive for every field
descriptor — in particular for every code of the finite byte domain — and,
being Lean functions, total with no error path. -/
theorem category_predicates_mutually_exclusive :
    ∀ f : Mysql.mysqlField,
      ¬(f.IsInteger = true ∧ f.IsFloatingPoint = true) ∧
      ¬(f.IsInteger = true ∧ f.IsDecimal = true) ∧
      ¬(f.IsInteger = true ∧ f.IsText = true) ∧
      ¬(f.IsInteger = true ∧ f.IsBlob = true) ∧
      ¬(f.IsInteger = true ∧ f.IsTime = true) ∧
      ¬(f.IsFloatingPoint = true ∧ f.IsDecimal = true) ∧
      ¬(f.IsFloatingPoint = true ∧ f.IsText = true) ∧
      ¬(f.IsFloatingPoint = true ∧ f.IsBlob = true) ∧
      ¬(f.IsFloatingPoint = true ∧ f.IsTime = true) ∧
      ¬(f.IsDecimal = true ∧ f.IsText = true) ∧
      ¬(f.IsDecimal = true ∧ f.IsBlob = true) ∧
      ¬(f.IsDecimal = true ∧ f.IsTime = true) ∧
      ¬(f.IsText = true ∧ f.IsBlob = true) ∧
      ¬(f.IsText = true ∧ f.IsTime = true) ∧
      ¬(f.IsBlob = true ∧ f.IsTime = true) := by
  intro f
  simp only [Mysql.mysqlField.IsInteger, Mysql.mysqlField.IsFloatingPoint,
    Mysql.mysqlField.IsDecimal, Mysql.mysqlField.IsText, Mysql.mysqlField.IsBlob,
    Mysql.mysqlField.IsTime, Mysql.fieldTypeTiny, Mysql.fieldTypeShort,
    Mysql.fieldTypeInt24, Mysql.fieldTypeLong, Mysql.fieldTypeLongLong,
    Mysql.fieldTypeFloat, Mysql.fieldTypeDouble, Mysql.fieldTypeDecimal,
    Mysql.fieldTypeNewDecimal, Mysql.fieldTypeVarChar, Mysql.fieldTypeVarString,
    Mysql.fieldTypeString, Mysql.fieldTypeTinyBLOB, Mysql.fieldTypeMediumBLOB,
    Mysql.fieldTypeBLOB, Mysql.fieldTypeLongBLOB, Mysql.fieldTypeYear,
    Mysql.fieldTypeDate, Mysql.fieldTypeNewDate, Mysql.fieldTypeTime,
    Mysql.fieldTypeTimestamp, Mysql.fieldTypeDateTime,
    Bool.or_eq_true, beq_iff_eq]
  omega

/-- C6 counterexample: a single-row wrapper with no nested `rows` reference
but a stored error.  The claim says the stored error is propagated as the
returned error; the code returns the `errRowRowsNil` inconsistency error
instead, because the `err` field is never read (the unsafe variants return
`errRowRowsNil` whenever `rows` is nil, and the reflect variant cannot even
reach its propagation branch: `CanInterface()` is false on the unexported
fields, so it always reports its could-not-read error). -/
theorem inspect_stored_error_dropped :
    SqlI.Inspect (.row (some ⟨none, some (.stored 7)⟩)) =
      (none, some .errRowRowsNil) ∧
    SqlI.Inspect (.row (some ⟨none, some (.stored 7)⟩)) ≠
      (none, some (.stored 7)) := by
  constructor <;> decide

/-- C6 amended: for every single-row wrapper, `Inspect` recurses as
multi-row when the nested `rows` reference is present; when it is absent
the inconsistent-state error `errRowRowsNil` is returned, whether or not a
stored error is present — the stored error is never propagated. -/
theorem inspect_single_row_no_propagation :
    ∀ r : SqlI.RowData,
      SqlI.Inspect (.row (some r)) =
        match r.rows with
        | some rs => SqlI.Inspect (.rows (some rs))
        | none => (none, some .errRowRowsNil) := by
  intro r
  rcases r with ⟨rows, err⟩
  cases rows <;> cases err <;> rfl

/-- C7 counterexample: the null sentinel code does have a defined name —
`mysqlNameFor` returns `"NULL"` for it, not the empty string claimed. -/
theorem mysqlNameFor_null_sentinel_not_empty :
    Mysql.mysqlNameFor Mysql.fieldTypeNULL = "NULL" ∧
    Mysql.mysqlNameFor Mysql.fieldTypeNULL ≠ "" := by
  constructor <;> decide

set_option maxRecDepth 4096 in
/-- C7 amended: `mysqlNameFor` is total over the byte domain; the
tiny-integer code maps to `"TINYINT"`, the null sentinel maps to `"NULL"`,
and exactly the codes outside 0–16 and 246–255 map to the empty string. -/
theorem mysqlNameFor_total_with_null_name :
    Mysql.mysqlNameFor Mysql.fieldTypeTiny = "TINYINT" ∧
    Mysql.mysqlNameFor Mysql.fieldTypeNULL = "NULL" ∧
    ∀ c : Fin 256,
      (Mysql.mysqlNameFor c.1 = "" ↔ ¬(c.1 ≤ 16 ∨ (246 ≤ c.1 ∧ c.1 ≤ 255))) :=
  ⟨by decide, by decide, by decide⟩

/-- C8: for every decimal-typed field descriptor (both decimal codes, any
name and flag word), `MysqlDeclaration` with no arguments succeeds and its
result contains no parenthesized parameter fragment, and with arguments
`[5, "x"]` (second not an int) it fails with the may-length-may-decimals
parameter error. -/
theorem mysqlDeclaration_decimal_params (f : Mysql.mysqlField)
    (h : f.IsDecimal = true) :
    (Mysql.MysqlDeclaration f []).2 = none ∧
    ((Mysql.MysqlDeclaration f []).1.data.contains '(') = false ∧
    Mysql.MysqlDeclaration f [.int 5, .str "x"] =
      ("", some .errMayLengthMayDecimals) := by
  rcases f with ⟨name, ft, flags⟩
  have hc : ft = Mysql.fieldTypeDecimal ∨ ft = Mysql.fieldTypeNewDecimal := by
    simpa [Mysql.mysqlField.IsDecimal] using h
  rcases hc with hc | hc <;> subst hc
  · refine ⟨rfl, ?_, rfl⟩
    have e1 : (Mysql.MysqlDeclaration ⟨name, Mysql.fieldTypeDecimal, flags⟩ []).1 =
        "DECIMAL" ++ "" ++
        Mysql.binSuffix ⟨name, Mysql.fieldTypeDecimal, flags⟩ ++
        Mysql.usSuffix ⟨name, Mysql.fieldTypeDecimal, flags⟩ ++
        Mysql.zfSuffix ⟨name, Mysql.fieldTypeDecimal, flags⟩ ++
        Mysql.nnSuffix ⟨name, Mysql.fieldTypeDecimal, flags⟩ := rfl
    rw [e1]
    unfold Mysql.binSuffix Mysql.usSuffix Mysql.zfSuffix Mysql.nnSuffix
    split_ifs <;> decide
  · refine ⟨rfl, ?_, rfl⟩
    have e1 : (Mysql.MysqlDeclaration ⟨name, Mysql.fieldTypeNewDecimal, flags⟩ []).1 =
        "DECIMAL" ++ "" ++
        Mysql.binSuffix ⟨name, Mysql.fieldTypeNewDecimal, flags⟩ ++
        Mysql.usSuffix ⟨name, Mysql.fieldTypeNewDecimal, flags⟩ ++
        Mysql.zfSuffix ⟨name, Mysql.fieldTypeNewDecimal, flags⟩ ++
        Mysql.nnSuffix ⟨name, Mysql.fieldTypeNewDecimal, flags⟩ := rfl
    rw [e1]
    unfold Mysql.binSuffix Mysql.usSuffix Mysql.zfSuffix Mysql.nnSuffix
    split_ifs <;> decide

/-- C8 witness: the decimal theorem instantiated at a concrete decimal
descriptor, where the no-argument declaration is exactly `"DECIMAL"`. -/
theorem mysqlDeclaration_decimal_params_witness :
    (Mysql.MysqlDeclaration ⟨"", Mysql.fieldTypeDecimal, 0⟩ []).2 = none ∧
    ((Mysql.MysqlDeclaration ⟨"", Mysql.fieldTypeDecimal, 0⟩ []).1.data.contains
      '(') = false ∧
    Mysql.MysqlDeclaration ⟨"", Mysql.fieldTypeDecimal, 0⟩ [.int 5, .str "x"] =
      ("", some .errMayLengthMayDecimals) :=
  mysqlDeclaration_decimal_params ⟨"", Mysql.fieldTypeDecimal, 0⟩ (by decide)

/-- C9: for every flag word, `ReflectType` maps each 32-bit integer code
(Int24 and Long) to the unsigned 32-bit type exactly when the unsigned flag
is set and to the signed 32-bit type otherwise, and likewise for every other
integer code at its width. -/
theorem reflectType_integer_signedness :
    ∀ flags : Nat,
      Mysql.ReflectType ⟨"", Mysql.fieldTypeTiny, flags⟩ =
        .ok (if flags &&& Mysql.flagUnsigned == Mysql.flagUnsigned
             then .uint8 else .int8) ∧
      Mysql.ReflectType ⟨"", Mysql.fieldTypeShort, flags⟩ =
        .ok (if flags &&& Mysql.flagUnsigned == Mysql.flagUnsigned
             then .uint16 else .int16) ∧
      Mysql.ReflectType ⟨"", Mysql.fieldTypeInt24, flags⟩ =
        .ok (if flags &&& Mysql.flagUnsigned == Mysql.flagUnsigned
             then .uint32 else .int32) ∧
      Mysql.ReflectType ⟨"", Mysql.fieldTypeLong, flags⟩ =
        .ok (if flags &&& Mysql.flagUnsigned == Mysql.flagUnsigned
             then .uint32 else .int32) ∧
      Mysql.ReflectType ⟨"", Mysql.fieldTypeLongLong, flags⟩ =
        .ok (if flags &&& Mysql.flagUnsigned == Mysql.flagUnsigned
             then .uint64 else .int64) := by
  intro flags
  simp [Mysql.ReflectType, Mysql.mysqlField.IsUnsigned, Mysql.mysqlField.hasFlag,
    Mysql.reflectTypeSigned, Mysql.fieldTypeTiny, Mysql.fieldTypeShort,
    Mysql.fieldTypeInt24, Mysql.fieldTypeLong, Mysql.fieldTypeLongLong,
    Mysql.flagUnsigned]
  split_ifs <;> simp

/-- C10: declaration generation is atomic on failure — for every field and
argument list, either the error result is nil or the string result is
empty, so a non-nil error is never paired with a partial declaration. -/
theorem mysqlDeclaration_error_empty_string :
    ∀ (f : Mysql.mysqlField) (args : List Mysql.Arg),
      (Mysql.MysqlDeclaration f args).2 = none ∨
      (Mysql.MysqlDeclaration f args).1 = "" := by
  intro f args
  by_cases h1 : f.fieldType = Mysql.fieldTypeNULL
  · right; simp [Mysql.MysqlDeclaration, h1]
  · by_cases h2 : f.MysqlParameters = Mysql.parameterType.ParamUnknown
    · right; simp [Mysql.MysqlDeclaration, h1, h2]
    · rcases h3 : Mysql.argsToParam args f.MysqlParameters
        (Mysql.declErrFor f.MysqlParameters) with ⟨p, e⟩
      cases e with
      | none => left; simp [Mysql.MysqlDeclaration, h1, h2, h3]
      | some e => right; simp [Mysql.MysqlDeclaration, h1, h2, h3]
